import Mathlib

/-!
Shallow embedding of the task-management core of the repository
(`src/unnamed/part_000` and `src/TaskService.ts`): the `CircuitBreaker`
state machine, the `TaskCommandService` and `TaskService` command layers
with their append-only event stores, and the `TaskQueryService`
read-side projection `getRecentEvents`.

Timestamps are modelled as natural numbers.  Each call to a service
operation receives the current time `now : Nat` explicitly (the source
reads `Date.now()`); the several `Date.now()` reads inside one call are
modelled as the single instant `now`.  The random id suffix produced by
`Math.random().toString(36).substr(2, 9)` is passed in as an explicit
`rand : String` parameter.  A wrapped asynchronous operation is modelled
as a function `σ → Except ε α × σ` over an explicit state `σ`: it
returns either a value or an error, together with the state it leaves
behind (JavaScript exceptions abort the body but keep mutations already
made, hence the state is returned on both branches).
-/

namespace TaskMgmt

/-- Task status, from the `Task` interface in `src/unnamed/part_000`. -/
inductive TStatus where
  | pending
  | in_progress
  | completed
  | failed
deriving DecidableEq, Repr

/-- Task priority, from the `Task` interface in `src/unnamed/part_000`. -/
inductive TPriority where
  | low
  | medium
  | high
deriving DecidableEq, Repr

/-- The `Task` entity of the domain layer. -/
structure Task where
  id : String
  title : String
  status : TStatus
  priority : TPriority
  createdAt : Nat
  updatedAt : Nat
deriving DecidableEq, Repr

/-- Domain-event types, from the `DomainEvent` interface. -/
inductive EventType where
  | TASK_CREATED
  | TASK_UPDATED
  | TASK_COMPLETED
  | TASK_FAILED
deriving DecidableEq, Repr

/-- A domain event: a full snapshot of the task plus metadata. -/
structure DomainEvent where
  type : EventType
  payload : Task
  timestamp : Nat
  aggregateId : String
deriving DecidableEq, Repr

/-- Breaker states, from the `state` field of class `CircuitBreaker`. -/
inductive BState where
  | CLOSED
  | OPEN
  | HALF_OPEN
deriving DecidableEq, Repr

/-- The mutable fields and the construction-time configuration of class
`CircuitBreaker` (`src/unnamed/part_000`, lines 28-83). -/
structure CircuitBreaker where
  failureCount : Nat
  successCount : Nat
  state : BState
  nextAttempt : Nat
  threshold : Nat
  timeout : Nat
  successThreshold : Nat
deriving DecidableEq, Repr

/-- A freshly constructed breaker: counters zero, state CLOSED,
`nextAttempt = Date.now()`; the constructor defaults are
`threshold = 3`, `timeout = 5000`, `successThreshold = 2`. -/
def mkBreaker (threshold timeout successThreshold now : Nat) : CircuitBreaker :=
  { failureCount := 0
    successCount := 0
    state := BState.CLOSED
    nextAttempt := now
    threshold := threshold
    timeout := timeout
    successThreshold := successThreshold }

/-- `CircuitBreaker.onSuccess`: reset `failureCount`; in HALF_OPEN also
bump `successCount` and close the breaker once it reaches
`successThreshold`. -/
def onSuccess (cb : CircuitBreaker) : CircuitBreaker :=
  let cb1 := { cb with failureCount := 0 }
  if cb1.state = BState.HALF_OPEN then
    let cb2 := { cb1 with successCount := cb1.successCount + 1 }
    if cb2.successCount ≥ cb2.successThreshold then
      { cb2 with state := BState.CLOSED, successCount := 0 }
    else
      cb2
  else
    cb1

/-- `CircuitBreaker.onFailure`: bump `failureCount`, clear
`successCount`; trip to OPEN with `nextAttempt = now + timeout` once
`failureCount` reaches `threshold`. -/
def onFailure (cb : CircuitBreaker) (now : Nat) : CircuitBreaker :=
  let cb1 := { cb with failureCount := cb.failureCount + 1, successCount := 0 }
  if cb1.failureCount ≥ cb1.threshold then
    { cb1 with state := BState.OPEN, nextAttempt := now + cb1.timeout }
  else
    cb1

/-- The OPEN-to-HALF_OPEN step performed by `execute` after the gate has
let the call through (`this.state = 'HALF_OPEN'` on line 45). -/
def gateStep (cb : CircuitBreaker) : CircuitBreaker :=
  if cb.state = BState.OPEN then { cb with state := BState.HALF_OPEN } else cb

/-- Errors a gated call can surface with: the breaker's own rejection
(`throw new Error('Circuit breaker is OPEN')`) or the wrapped
operation's error. -/
inductive ExecError (ε : Type) where
  | breakerOpen
  | opError (e : ε)
deriving DecidableEq, Repr

/-- `CircuitBreaker.execute` (lines 40-56): reject immediately when OPEN
and `now < nextAttempt`; otherwise move OPEN to HALF_OPEN, run the
operation once, and record its outcome via `onSuccess` / `onFailure`,
propagating its result or error. -/
def executeS {σ ε α : Type} (cb : CircuitBreaker) (now : Nat)
    (fn : σ → Except ε α × σ) (s : σ) :
    Except (ExecError ε) α × CircuitBreaker × σ :=
  if cb.state = BState.OPEN ∧ now < cb.nextAttempt then
    (Except.error ExecError.breakerOpen, cb, s)
  else
    let cb1 := gateStep cb
    match fn s with
    | (Except.ok a, s1) => (Except.ok a, onSuccess cb1, s1)
    | (Except.error e, s1) => (Except.error (ExecError.opError e), onFailure cb1 now, s1)

/-- Breaker state after one call whose wrapped operation fails (the
operation itself has no other effect). -/
def execFail (cb : CircuitBreaker) (now : Nat) : CircuitBreaker :=
  (executeS cb now (fun s : Unit => ((Except.error () : Except Unit Unit), s)) ()).2.1

/-- Breaker state after one call whose wrapped operation succeeds or
fails according to `succeeds` (the operation has no other effect). -/
def execStep (cb : CircuitBreaker) (now : Nat) (succeeds : Bool) : CircuitBreaker :=
  (executeS cb now
    (fun s : Unit =>
      ((if succeeds then Except.ok () else Except.error () : Except Unit Unit), s)) ()).2.1

/-- Breaker state after a sequence of failing calls at the given times. -/
def afterFails (cb : CircuitBreaker) (ts : List Nat) : CircuitBreaker :=
  ts.foldl execFail cb

/-- Domain-level error raised inside a wrapped operation: `TaskService`
throws `new Error('Task not found')` when the looked-up id is absent. -/
inductive TaskError where
  | taskNotFound
deriving DecidableEq, Repr

/-- The `TaskCommandService` of `src/unnamed/part_000`: an event store
and a circuit breaker. -/
structure TaskCommandService where
  eventStore : List DomainEvent
  circuitBreaker : CircuitBreaker
deriving DecidableEq, Repr

/-- `TaskCommandService.createTask` (lines 93-116): via the breaker,
build a fresh pending task whose id is derived from the clock and a
random suffix, append a `TASK_CREATED` event carrying the task, and
return the task.  The wrapped operation never throws. -/
def TaskCommandService.createTask (svc : TaskCommandService) (now : Nat)
    (rand : String) (title : String) (priority : TPriority) :
    Except (ExecError TaskError) Task × TaskCommandService :=
  let body : List DomainEvent → Except TaskError Task × List DomainEvent :=
    fun store =>
      let task : Task :=
        { id := "task_" ++ toString now ++ "_" ++ rand
          title := title
          status := TStatus.pending
          priority := priority
          createdAt := now
          updatedAt := now }
      let ev : DomainEvent :=
        { type := EventType.TASK_CREATED
          payload := task
          timestamp := now
          aggregateId := task.id }
      (Except.ok task, store ++ [ev])
  let r := executeS svc.circuitBreaker now body svc.eventStore
  (r.1, { eventStore := r.2.2, circuitBreaker := r.2.1 })

/-- `TaskCommandService.updateTaskStatus` (lines 118-137): via the
breaker, copy the given task with the new status and `updatedAt = now`,
append a `TASK_COMPLETED` event when the new status is `completed` and
a `TASK_UPDATED` event otherwise (aggregateId is the input task's id),
and return the updated task.  The wrapped operation never throws. -/
def TaskCommandService.updateTaskStatus (svc : TaskCommandService) (now : Nat)
    (task : Task) (status : TStatus) :
    Except (ExecError TaskError) Task × TaskCommandService :=
  let body : List DomainEvent → Except TaskError Task × List DomainEvent :=
    fun store =>
      let updatedTask : Task := { task with status := status, updatedAt := now }
      let ev : DomainEvent :=
        { type := if status = TStatus.completed then EventType.TASK_COMPLETED
                  else EventType.TASK_UPDATED
          payload := updatedTask
          timestamp := now
          aggregateId := task.id }
      (Except.ok updatedTask, store ++ [ev])
  let r := executeS svc.circuitBreaker now body svc.eventStore
  (r.1, { eventStore := r.2.2, circuitBreaker := r.2.1 })

/-- The id-based `TaskService` variant of `src/TaskService.ts`: a task
collection, an event store and a circuit breaker. -/
structure TaskService where
  tasks : List Task
  eventStore : List DomainEvent
  circuitBreaker : CircuitBreaker
deriving DecidableEq, Repr

/-- `TaskService.updateTaskStatus` (`src/TaskService.ts`, lines 34-58):
via the breaker, look the task up by id; when the id is absent throw
`Task not found` (before any mutation); otherwise replace the stored
task by the updated copy, append the event, and return the copy. -/
def TaskService.updateTaskStatus (svc : TaskService) (now : Nat)
    (taskId : String) (status : TStatus) :
    Except (ExecError TaskError) Task × TaskService :=
  let body : List Task × List DomainEvent →
      Except TaskError Task × (List Task × List DomainEvent) :=
    fun s =>
      match s.1.find? (fun t => t.id == taskId) with
      | none => (Except.error TaskError.taskNotFound, s)
      | some task =>
        let updatedTask : Task := { task with status := status, updatedAt := now }
        let tasks1 := s.1.map (fun t => if t.id = taskId then updatedTask else t)
        let ev : DomainEvent :=
          { type := if status = TStatus.completed then EventType.TASK_COMPLETED
                    else EventType.TASK_UPDATED
            payload := updatedTask
            timestamp := now
            aggregateId := task.id }
        (Except.ok updatedTask, (tasks1, s.2 ++ [ev]))
  let r := executeS svc.circuitBreaker now body (svc.tasks, svc.eventStore)
  (r.1, { tasks := r.2.2.1, eventStore := r.2.2.2, circuitBreaker := r.2.1 })

/-- JavaScript `Array.prototype.slice` with one argument, on lists: a
negative start counts from the end (clamped at 0), a non-negative start
is clamped at the length; the result is the suffix from that index. -/
def jsSlice {α : Type} (xs : List α) (start : Int) : List α :=
  if start < 0 then
    xs.drop (xs.length - start.natAbs)
  else
    xs.drop (min start.toNat xs.length)

/-- `TaskQueryService.getRecentEvents` (lines 164-166):
`events.slice(-limit).reverse()`. -/
def TaskQueryService.getRecentEvents (events : List DomainEvent) (limit : Int) :
    List DomainEvent :=
  (jsSlice events (-limit)).reverse

instance {ε α : Type} [DecidableEq ε] [DecidableEq α] : DecidableEq (Except ε α) :=
  fun x y =>
    match x, y with
    | Except.ok a, Except.ok b =>
      if h : a = b then isTrue (by rw [h])
      else isFalse (fun hc => h (by injection hc))
    | Except.error e, Except.error f =>
      if h : e = f then isTrue (by rw [h])
      else isFalse (fun hc => h (by injection hc))
    | Except.ok _, Except.error _ => isFalse (fun hc => Except.noConfusion hc)
    | Except.error _, Except.ok _ => isFalse (fun hc => Except.noConfusion hc)

/-- Invariant used for claim C9: outside HALF_OPEN the success counter
is zero, so the counter a HALF_OPEN episode starts from is zero. -/
def BreakerInv (cb : CircuitBreaker) : Prop :=
  cb.state ≠ BState.HALF_OPEN → cb.successCount = 0

/-- A sample task used in concrete counterexamples and witnesses. -/
def sampleTask : Task :=
  { id := "t1"
    title := "a"
    status := TStatus.pending
    priority := TPriority.low
    createdAt := 0
    updatedAt := 0 }

/-- A sample event used in concrete counterexamples and witnesses. -/
def sampleEvent : DomainEvent :=
  { type := EventType.TASK_CREATED
    payload := sampleTask
    timestamp := 0
    aggregateId := "t1" }

lemma executeS_rejected {σ ε α : Type} (cb : CircuitBreaker) (now : Nat)
    (fn : σ → Except ε α × σ) (s : σ)
    (hgate : cb.state = BState.OPEN ∧ now < cb.nextAttempt) :
    executeS cb now fn s = (Except.error ExecError.breakerOpen, cb, s) := by
  unfold executeS
  rw [if_pos hgate]

lemma executeS_ok {σ ε α : Type} (cb : CircuitBreaker) (now : Nat)
    (fn : σ → Except ε α × σ) (s : σ) (a : α) (s1 : σ)
    (hgate : ¬(cb.state = BState.OPEN ∧ now < cb.nextAttempt))
    (hf : fn s = (Except.ok a, s1)) :
    executeS cb now fn s = (Except.ok a, onSuccess (gateStep cb), s1) := by
  unfold executeS
  rw [if_neg hgate, hf]

lemma executeS_err {σ ε α : Type} (cb : CircuitBreaker) (now : Nat)
    (fn : σ → Except ε α × σ) (s : σ) (e : ε) (s1 : σ)
    (hgate : ¬(cb.state = BState.OPEN ∧ now < cb.nextAttempt))
    (hf : fn s = (Except.error e, s1)) :
    executeS cb now fn s = (Except.error (ExecError.opError e), onFailure (gateStep cb) now, s1) := by
  unfold executeS
  rw [if_neg hgate, hf]

lemma gateStep_of_not_open (cb : CircuitBreaker) (h : cb.state ≠ BState.OPEN) :
    gateStep cb = cb := by
  unfold gateStep
  rw [if_neg h]

/-- Claim C5 (confirmed): while OPEN with `now < nextAttempt`, `execute`
fails with the breaker-open error, the wrapped operation is never
invoked (the outcome is the same for every operation and the operation
state `s` is returned untouched), and the breaker record — state,
`failureCount`, `successCount`, `nextAttempt` — is returned unchanged. -/
theorem c5_open_rejects_without_invoking {σ ε α : Type} (cb : CircuitBreaker) (now : Nat)
    (fn : σ → Except ε α × σ) (s : σ)
    (hst : cb.state = BState.OPEN) (hlt : now < cb.nextAttempt) :
    executeS cb now fn s = (Except.error ExecError.breakerOpen, cb, s) :=
  executeS_rejected cb now fn s ⟨hst, hlt⟩

/-- Witness for C5: a concrete OPEN breaker before its cooldown rejects
a concrete call-counting operation and the counter stays at 0. -/
theorem c5_open_rejects_without_invoking_witness :
    ({ mkBreaker 3 5000 2 50 with state := BState.OPEN } : CircuitBreaker).state
      = BState.OPEN ∧
    (10 : Nat) < ({ mkBreaker 3 5000 2 50 with state := BState.OPEN } : CircuitBreaker).nextAttempt ∧
    executeS { mkBreaker 3 5000 2 50 with state := BState.OPEN } 10
        (fun n : Nat => ((Except.ok 0 : Except Unit Nat), n + 1)) 0
      = (Except.error ExecError.breakerOpen,
         { mkBreaker 3 5000 2 50 with state := BState.OPEN }, 0) :=
  ⟨rfl, by decide,
   c5_open_rejects_without_invoking _ 10 (fun n : Nat => (Except.ok 0, n + 1)) 0 rfl (by decide)⟩

/-- Counterexample for C2: `getRecentEvents` with `limit = 0` on a
one-event log returns the whole log reversed, not the empty sequence
the claim demands (`slice(-0)` is `slice(0)`). -/
theorem c2_cex :
    ¬ (∀ (events : List DomainEvent) (limit : Int), limit ≤ 0 →
        TaskQueryService.getRecentEvents events limit = []) := by
  intro h
  have h1 := h [sampleEvent] 0 (by decide)
  exact absurd h1 (by decide)

/-- Claim C2 (corrected): for `limit ≤ 0`, `getRecentEvents` drops the
first `|limit|` events and reverses the rest; in particular `limit = 0`
returns the whole log reversed, and the result is empty only when
`|limit|` is at least the number of events. -/
theorem c2_nonpositive_limit (events : List DomainEvent) (limit : Int) (h : limit ≤ 0) :
    TaskQueryService.getRecentEvents events limit
      = (events.drop limit.natAbs).reverse := by
  unfold TaskQueryService.getRecentEvents jsSlice
  rw [if_neg (by omega)]
  have hT : (-limit).toNat = limit.natAbs := by omega
  rw [hT]
  rcases le_total limit.natAbs events.length with hle | hle
  · rw [min_eq_left hle]
  · rw [min_eq_right hle, List.drop_length, List.drop_eq_nil_of_le hle]

/-- Witness for C2: at `limit = -1` on a one-event log, the first event
is dropped and the result is empty. -/
theorem c2_nonpositive_limit_witness :
    (-1 : Int) ≤ 0 ∧
    TaskQueryService.getRecentEvents [sampleEvent] (-1)
      = (([sampleEvent] : List DomainEvent).drop (Int.natAbs (-1))).reverse :=
  ⟨by decide, c2_nonpositive_limit [sampleEvent] (-1) (by decide)⟩

/-- Counterexample for C1: run the breaker from its initial state
through three failures (tripping it OPEN), one successful probe after
the cooldown (HALF_OPEN with one recorded success), then one failing
call.  The failing call leaves the breaker HALF_OPEN with its old
`nextAttempt`, not OPEN with a fresh one as the claim states. -/
theorem c1_cex :
    (List.foldl (fun cb p => execStep cb p.1 p.2) (mkBreaker 3 5000 2 0)
        [(0, false), (0, false), (0, false), (5000, true)]).state = BState.HALF_OPEN ∧
    (List.foldl (fun cb p => execStep cb p.1 p.2) (mkBreaker 3 5000 2 0)
        [(0, false), (0, false), (0, false), (5000, true)]).successCount = 1 ∧
    (execStep (List.foldl (fun cb p => execStep cb p.1 p.2) (mkBreaker 3 5000 2 0)
        [(0, false), (0, false), (0, false), (5000, true)]) 6000 false).state
      = BState.HALF_OPEN ∧
    (execStep (List.foldl (fun cb p => execStep cb p.1 p.2) (mkBreaker 3 5000 2 0)
        [(0, false), (0, false), (0, false), (5000, true)]) 6000 false).state
      ≠ BState.OPEN ∧
    (execStep (List.foldl (fun cb p => execStep cb p.1 p.2) (mkBreaker 3 5000 2 0)
        [(0, false), (0, false), (0, false), (5000, true)]) 6000 false).nextAttempt
      = (List.foldl (fun cb p => execStep cb p.1 p.2) (mkBreaker 3 5000 2 0)
        [(0, false), (0, false), (0, false), (5000, true)]).nextAttempt := by
  decide

/-- Claim C1 (corrected): in HALF_OPEN a failing call always resets
`successCount` to 0 and increments `failureCount`, but it transitions
back to OPEN with a fresh `nextAttempt = now + timeout` exactly when the
incremented `failureCount` reaches the threshold; otherwise (possible
precisely after an earlier success of the episode reset `failureCount`)
the breaker stays HALF_OPEN with its old `nextAttempt`. -/
theorem c1_half_open_failure {σ ε α : Type} (cb : CircuitBreaker) (now : Nat)
    (fn : σ → Except ε α × σ) (s : σ) (e : ε) (s1 : σ)
    (hst : cb.state = BState.HALF_OPEN) (hf : fn s = (Except.error e, s1)) :
    (executeS cb now fn s).2.1.successCount = 0 ∧
    (executeS cb now fn s).2.1.failureCount = cb.failureCount + 1 ∧
    ((executeS cb now fn s).2.1.state = BState.OPEN ↔ cb.threshold ≤ cb.failureCount + 1) ∧
    (cb.threshold ≤ cb.failureCount + 1 →
      (executeS cb now fn s).2.1.nextAttempt = now + cb.timeout) ∧
    (cb.failureCount + 1 < cb.threshold →
      (executeS cb now fn s).2.1.state = BState.HALF_OPEN ∧
      (executeS cb now fn s).2.1.nextAttempt = cb.nextAttempt) := by
  have hno : cb.state ≠ BState.OPEN := by rw [hst]; simp
  rw [executeS_err cb now fn s e s1 (fun hc => hno hc.1) hf,
      gateStep_of_not_open cb hno]
  unfold onFailure
  by_cases hth : cb.failureCount + 1 ≥ cb.threshold
  · rw [if_pos hth]
    refine ⟨rfl, rfl, by simp [hth], fun _ => rfl, fun hlt => absurd hth (by omega)⟩
  · rw [if_neg hth]
    refine ⟨rfl, rfl, ?_, fun hge => absurd hge hth, fun _ => ⟨hst, rfl⟩⟩
    simp only [hst]
    constructor
    · intro hc; exact absurd hc (by simp)
    · intro hge; exact absurd hge hth

/-- Witness for C1 (corrected): a HALF_OPEN breaker that has already
recorded one success (failure count 0, threshold 3) absorbs a failing
call: success count cleared, failure count 1, state still HALF_OPEN,
`nextAttempt` untouched. -/
theorem c1_half_open_failure_witness :
    ({ mkBreaker 3 5000 2 0 with state := BState.HALF_OPEN, successCount := 1 }
        : CircuitBreaker).state = BState.HALF_OPEN ∧
    (executeS { mkBreaker 3 5000 2 0 with state := BState.HALF_OPEN, successCount := 1 } 42
        (fun s : Unit => ((Except.error TaskError.taskNotFound : Except TaskError Unit), s))
        ()).2.1.successCount = 0 ∧
    (executeS { mkBreaker 3 5000 2 0 with state := BState.HALF_OPEN, successCount := 1 } 42
        (fun s : Unit => ((Except.error TaskError.taskNotFound : Except TaskError Unit), s))
        ()).2.1.failureCount = 1 ∧
    (executeS { mkBreaker 3 5000 2 0 with state := BState.HALF_OPEN, successCount := 1 } 42
        (fun s : Unit => ((Except.error TaskError.taskNotFound : Except TaskError Unit), s))
        ()).2.1.state = BState.HALF_OPEN ∧
    (executeS { mkBreaker 3 5000 2 0 with state := BState.HALF_OPEN, successCount := 1 } 42
        (fun s : Unit => ((Except.error TaskError.taskNotFound : Except TaskError Unit), s))
        ()).2.1.nextAttempt = 0 :=
  have h := c1_half_open_failure
    { mkBreaker 3 5000 2 0 with state := BState.HALF_OPEN, successCount := 1 } 42
    (fun s : Unit => ((Except.error TaskError.taskNotFound : Except TaskError Unit), s))
    () TaskError.taskNotFound () rfl rfl
  ⟨rfl, h.1, h.2.1, (h.2.2.2.2 (by decide)).1, (h.2.2.2.2 (by decide)).2⟩

lemma createTask_eq (svc : TaskCommandService) (now : Nat) (rand title : String)
    (prio : TPriority) :
    svc.createTask now rand title prio =
      if svc.circuitBreaker.state = BState.OPEN ∧ now < svc.circuitBreaker.nextAttempt then
        (Except.error ExecError.breakerOpen, svc)
      else
        (Except.ok
          { id := "task_" ++ toString now ++ "_" ++ rand
            title := title
            status := TStatus.pending
            priority := prio
            createdAt := now
            updatedAt := now },
         { eventStore := svc.eventStore ++
             [{ type := EventType.TASK_CREATED
                payload :=
                  { id := "task_" ++ toString now ++ "_" ++ rand
                    title := title
                    status := TStatus.pending
                    priority := prio
                    createdAt := now
                    updatedAt := now }
                timestamp := now
                aggregateId := "task_" ++ toString now ++ "_" ++ rand }]
           circuitBreaker := onSuccess (gateStep svc.circuitBreaker) }) := by
  by_cases hg : svc.circuitBreaker.state = BState.OPEN ∧ now < svc.circuitBreaker.nextAttempt
  · simp only [TaskCommandService.createTask, executeS, if_pos hg]
  · simp only [TaskCommandService.createTask, executeS, if_neg hg]

lemma updateTaskStatus_eq (svc : TaskCommandService) (now : Nat) (task : Task)
    (st : TStatus) :
    svc.updateTaskStatus now task st =
      if svc.circuitBreaker.state = BState.OPEN ∧ now < svc.circuitBreaker.nextAttempt then
        (Except.error ExecError.breakerOpen, svc)
      else
        (Except.ok { task with status := st, updatedAt := now },
         { eventStore := svc.eventStore ++
             [{ type := if st = TStatus.completed then EventType.TASK_COMPLETED
                        else EventType.TASK_UPDATED
                payload := { task with status := st, updatedAt := now }
                timestamp := now
                aggregateId := task.id }]
           circuitBreaker := onSuccess (gateStep svc.circuitBreaker) }) := by
  by_cases hg : svc.circuitBreaker.state = BState.OPEN ∧ now < svc.circuitBreaker.nextAttempt
  · simp only [TaskCommandService.updateTaskStatus, executeS, if_pos hg]
  · simp only [TaskCommandService.updateTaskStatus, executeS, if_neg hg]

/-- Claim C7 (confirmed): a successful `updateTaskStatus` on the
command service returns the input task with only `status` replaced by
the target status and `updatedAt` replaced by `now`; title, id,
priority and `createdAt` are carried over unchanged. -/
theorem c7_update_preserves_frame (svc : TaskCommandService) (now : Nat) (task : Task)
    (st : TStatus) (t : Task)
    (h : (svc.updateTaskStatus now task st).1 = Except.ok t) :
    t.status = st ∧ t.updatedAt = now ∧ t.title = task.title ∧ t.id = task.id ∧
    t.priority = task.priority ∧ t.createdAt = task.createdAt := by
  rw [updateTaskStatus_eq] at h
  by_cases hg : svc.circuitBreaker.state = BState.OPEN ∧ now < svc.circuitBreaker.nextAttempt
  · rw [if_pos hg] at h
    exact absurd h (by simp)
  · rw [if_neg hg] at h
    simp only [Prod.fst, Except.ok.injEq] at h
    subst h
    exact ⟨rfl, rfl, rfl, rfl, rfl, rfl⟩

/-- Witness for C7: a concrete successful update of the sample task to
`in_progress` at time 7 keeps every field but `status`/`updatedAt`. -/
theorem c7_update_preserves_frame_witness :
    (TaskCommandService.updateTaskStatus
        { eventStore := [], circuitBreaker := mkBreaker 3 5000 2 0 } 7 sampleTask
        TStatus.in_progress).1
      = Except.ok { sampleTask with status := TStatus.in_progress, updatedAt := 7 } ∧
    ({ sampleTask with status := TStatus.in_progress, updatedAt := 7 } : Task).status
        = TStatus.in_progress ∧
    ({ sampleTask with status := TStatus.in_progress, updatedAt := 7 } : Task).updatedAt = 7 ∧
    ({ sampleTask with status := TStatus.in_progress, updatedAt := 7 } : Task).title
        = sampleTask.title ∧
    ({ sampleTask with status := TStatus.in_progress, updatedAt := 7 } : Task).id
        = sampleTask.id ∧
    ({ sampleTask with status := TStatus.in_progress, updatedAt := 7 } : Task).priority
        = sampleTask.priority ∧
    ({ sampleTask with status := TStatus.in_progress, updatedAt := 7 } : Task).createdAt
        = sampleTask.createdAt :=
  ⟨by decide,
   c7_update_preserves_frame { eventStore := [], circuitBreaker := mkBreaker 3 5000 2 0 }
     7 sampleTask TStatus.in_progress _ (by decide)⟩

/-- Claim C4 (confirmed): a successful `createTask` or
`updateTaskStatus` on the command service appends exactly one event,
whose payload is the returned task and whose `aggregateId` equals the
payload's id; a call that errors (in particular one rejected by the
breaker) appends no event. -/
theorem c4_one_event_per_success (svc : TaskCommandService) (now : Nat)
    (rand title : String) (prio : TPriority) (task : Task) (st : TStatus) :
    ((∀ t, (svc.createTask now rand title prio).1 = Except.ok t →
        ∃ e, (svc.createTask now rand title prio).2.eventStore = svc.eventStore ++ [e] ∧
          e.payload = t ∧ e.aggregateId = e.payload.id) ∧
     (∀ err, (svc.createTask now rand title prio).1 = Except.error err →
        (svc.createTask now rand title prio).2.eventStore = svc.eventStore)) ∧
    ((∀ t, (svc.updateTaskStatus now task st).1 = Except.ok t →
        ∃ e, (svc.updateTaskStatus now task st).2.eventStore = svc.eventStore ++ [e] ∧
          e.payload = t ∧ e.aggregateId = e.payload.id) ∧
     (∀ err, (svc.updateTaskStatus now task st).1 = Except.error err →
        (svc.updateTaskStatus now task st).2.eventStore = svc.eventStore)) := by
  by_cases hg : svc.circuitBreaker.state = BState.OPEN ∧ now < svc.circuitBreaker.nextAttempt
  · refine ⟨⟨fun t ht => ?_, fun err herr => ?_⟩, ⟨fun t ht => ?_, fun err herr => ?_⟩⟩
    · rw [createTask_eq, if_pos hg] at ht
      exact absurd ht (by simp)
    · rw [createTask_eq, if_pos hg]
    · rw [updateTaskStatus_eq, if_pos hg] at ht
      exact absurd ht (by simp)
    · rw [updateTaskStatus_eq, if_pos hg]
  · refine ⟨⟨fun t ht => ?_, fun err herr => ?_⟩, ⟨fun t ht => ?_, fun err herr => ?_⟩⟩
    · rw [createTask_eq, if_neg hg] at ht ⊢
      simp only [Except.ok.injEq] at ht
      subst ht
      exact ⟨_, rfl, rfl, rfl⟩
    · rw [createTask_eq, if_neg hg] at herr
      exact absurd herr (by simp)
    · rw [updateTaskStatus_eq, if_neg hg] at ht ⊢
      simp only [Except.ok.injEq] at ht
      subst ht
      exact ⟨_, rfl, rfl, rfl⟩
    · rw [updateTaskStatus_eq, if_neg hg] at herr
      exact absurd herr (by simp)

/-- Witness for C4: a concrete successful create on a fresh service
returns a task and appends exactly one event whose payload is that task
and whose `aggregateId` is its id, and a concrete breaker-rejected
update appends nothing. -/
theorem c4_one_event_per_success_witness :
    (TaskCommandService.createTask
        { eventStore := [], circuitBreaker := mkBreaker 3 5000 2 0 } 3 "r" "hello"
        TPriority.high).1
      = Except.ok
          { id := "task_3_r", title := "hello", status := TStatus.pending,
            priority := TPriority.high, createdAt := 3, updatedAt := 3 } ∧
    (∃ e, (TaskCommandService.createTask
        { eventStore := [], circuitBreaker := mkBreaker 3 5000 2 0 } 3 "r" "hello"
        TPriority.high).2.eventStore = [] ++ [e] ∧
      e.payload = { id := "task_3_r", title := "hello", status := TStatus.pending,
                    priority := TPriority.high, createdAt := 3, updatedAt := 3 } ∧
      e.aggregateId = e.payload.id) ∧
    (TaskCommandService.updateTaskStatus
        { eventStore := [sampleEvent],
          circuitBreaker := { mkBreaker 3 5000 2 50 with state := BState.OPEN } } 10
        sampleTask TStatus.completed).1 = Except.error ExecError.breakerOpen ∧
    (TaskCommandService.updateTaskStatus
        { eventStore := [sampleEvent],
          circuitBreaker := { mkBreaker 3 5000 2 50 with state := BState.OPEN } } 10
        sampleTask TStatus.completed).2.eventStore = [sampleEvent] :=
  ⟨by decide,
   (c4_one_event_per_success { eventStore := [], circuitBreaker := mkBreaker 3 5000 2 0 }
      3 "r" "hello" TPriority.high sampleTask TStatus.completed).1.1
     { id := "task_3_r", title := "hello", status := TStatus.pending,
       priority := TPriority.high, createdAt := 3, updatedAt := 3 } (by decide),
   by decide,
   (c4_one_event_per_success
      { eventStore := [sampleEvent],
        circuitBreaker := { mkBreaker 3 5000 2 50 with state := BState.OPEN } }
      10 "r" "hello" TPriority.high sampleTask TStatus.completed).2.2
     ExecError.breakerOpen (by decide)⟩

/-- Claim C8 (confirmed): a successful `updateTaskStatus` appends an
event whose type is `TASK_COMPLETED` exactly when the target status is
`completed`, is `TASK_UPDATED` for every other status, and is never
`TASK_FAILED`. -/
theorem c8_update_event_type (svc : TaskCommandService) (now : Nat) (task : Task)
    (st : TStatus) (t : Task)
    (h : (svc.updateTaskStatus now task st).1 = Except.ok t) :
    ∃ e, (svc.updateTaskStatus now task st).2.eventStore = svc.eventStore ++ [e] ∧
      (e.type = EventType.TASK_COMPLETED ↔ st = TStatus.completed) ∧
      (st ≠ TStatus.completed → e.type = EventType.TASK_UPDATED) ∧
      e.type ≠ EventType.TASK_FAILED := by
  rw [updateTaskStatus_eq] at h ⊢
  by_cases hg : svc.circuitBreaker.state = BState.OPEN ∧ now < svc.circuitBreaker.nextAttempt
  · rw [if_pos hg] at h
    exact absurd h (by simp)
  · rw [if_neg hg]
    refine ⟨_, rfl, ?_, ?_, ?_⟩
    · by_cases hc : st = TStatus.completed
      · simp [hc]
      · simp [hc]
    · intro hc
      simp [hc]
    · by_cases hc : st = TStatus.completed
      · simp [hc]
      · simp [hc]

/-- Witness for C8: a concrete successful update to `failed` appends a
`TASK_UPDATED` (not `TASK_FAILED`) event. -/
theorem c8_update_event_type_witness :
    (TaskCommandService.updateTaskStatus
        { eventStore := [], circuitBreaker := mkBreaker 3 5000 2 0 } 9 sampleTask
        TStatus.failed).1
      = Except.ok { sampleTask with status := TStatus.failed, updatedAt := 9 } ∧
    ∃ e, (TaskCommandService.updateTaskStatus
        { eventStore := [], circuitBreaker := mkBreaker 3 5000 2 0 } 9 sampleTask
        TStatus.failed).2.eventStore = [] ++ [e] ∧
      (e.type = EventType.TASK_COMPLETED ↔ TStatus.failed = TStatus.completed) ∧
      (TStatus.failed ≠ TStatus.completed → e.type = EventType.TASK_UPDATED) ∧
      e.type ≠ EventType.TASK_FAILED :=
  ⟨by decide,
   c8_update_event_type { eventStore := [], circuitBreaker := mkBreaker 3 5000 2 0 }
     9 sampleTask TStatus.failed { sampleTask with status := TStatus.failed, updatedAt := 9 }
     (by decide)⟩

/-- Claim C10 (confirmed): the by-value `updateTaskStatus` performs no
existence check — for every task value, a breaker-allowed call succeeds
and appends one `TASK_UPDATED`/`TASK_COMPLETED` event keyed by the
given task's id, whether or not that id was ever created. -/
theorem c10_update_needs_no_creation (svc : TaskCommandService) (now : Nat) (task : Task)
    (st : TStatus)
    (hgate : ¬(svc.circuitBreaker.state = BState.OPEN ∧ now < svc.circuitBreaker.nextAttempt)) :
    ∃ t e, (svc.updateTaskStatus now task st).1 = Except.ok t ∧
      (svc.updateTaskStatus now task st).2.eventStore = svc.eventStore ++ [e] ∧
      e.aggregateId = task.id ∧
      (e.type = EventType.TASK_UPDATED ∨ e.type = EventType.TASK_COMPLETED) := by
  rw [updateTaskStatus_eq, if_neg hgate]
  refine ⟨_, _, rfl, rfl, rfl, ?_⟩
  by_cases hc : st = TStatus.completed
  · right; simp [hc]
  · left; simp [hc]

/-- Witness for C10: updating a ghost task (never created) on a fresh
service succeeds and leaves a `TASK_UPDATED` event for aggregate
`"ghost"` in a log that holds no `TASK_CREATED` event at all. -/
theorem c10_update_needs_no_creation_witness :
    (∃ t e, (TaskCommandService.updateTaskStatus
        { eventStore := [], circuitBreaker := mkBreaker 3 5000 2 0 } 5
        { sampleTask with id := "ghost" } TStatus.in_progress).1 = Except.ok t ∧
      (TaskCommandService.updateTaskStatus
        { eventStore := [], circuitBreaker := mkBreaker 3 5000 2 0 } 5
        { sampleTask with id := "ghost" } TStatus.in_progress).2.eventStore = [] ++ [e] ∧
      e.aggregateId = ({ sampleTask with id := "ghost" } : Task).id ∧
      (e.type = EventType.TASK_UPDATED ∨ e.type = EventType.TASK_COMPLETED)) ∧
    (TaskCommandService.updateTaskStatus
        { eventStore := [], circuitBreaker := mkBreaker 3 5000 2 0 } 5
        { sampleTask with id := "ghost" } TStatus.in_progress).2.eventStore.length = 1 ∧
    (TaskCommandService.updateTaskStatus
        { eventStore := [], circuitBreaker := mkBreaker 3 5000 2 0 } 5
        { sampleTask with id := "ghost" } TStatus.in_progress).2.eventStore.countP
        (fun e => decide (e.type = EventType.TASK_CREATED)) = 0 ∧
    ((TaskCommandService.updateTaskStatus
        { eventStore := [], circuitBreaker := mkBreaker 3 5000 2 0 } 5
        { sampleTask with id := "ghost" } TStatus.in_progress).2.eventStore.getD 0
        sampleEvent).aggregateId = "ghost" :=
  ⟨c10_update_needs_no_creation { eventStore := [], circuitBreaker := mkBreaker 3 5000 2 0 }
     5 { sampleTask with id := "ghost" } TStatus.in_progress (by decide),
   by decide, by decide, by decide⟩

/-- Counterexample for C3: on a fresh `TaskService` with an empty task
store, updating an absent id does fail with the not-found error and
leaves tasks and events untouched, but the failure goes through the
breaker: its `failureCount` moves from 0 to 1, so the breaker is not
unchanged as the claim requires. -/
theorem c3_cex :
    (TaskService.updateTaskStatus
        { tasks := [], eventStore := [], circuitBreaker := mkBreaker 3 5000 2 0 } 10
        "missing" TStatus.completed).1
      = Except.error (ExecError.opError TaskError.taskNotFound) ∧
    (TaskService.updateTaskStatus
        { tasks := [], eventStore := [], circuitBreaker := mkBreaker 3 5000 2 0 } 10
        "missing" TStatus.completed).2.tasks = [] ∧
    (TaskService.updateTaskStatus
        { tasks := [], eventStore := [], circuitBreaker := mkBreaker 3 5000 2 0 } 10
        "missing" TStatus.completed).2.eventStore = [] ∧
    (TaskService.updateTaskStatus
        { tasks := [], eventStore := [], circuitBreaker := mkBreaker 3 5000 2 0 } 10
        "missing" TStatus.completed).2.circuitBreaker.failureCount = 1 ∧
    (mkBreaker 3 5000 2 0).failureCount = 0 := by
  decide

/-- Claim C3 (corrected): when the id is absent and the breaker's gate
lets the call through, `TaskService.updateTaskStatus` fails with the
not-found error, appends no event and leaves the task collection
unchanged — but the lookup happens inside the breaker-wrapped
operation, so the breaker records the failure (`onFailure` after the
gate step: `failureCount` incremented, `successCount` cleared, possibly
tripping to OPEN), rather than failing before the breaker is invoked. -/
theorem c3_not_found_inside_breaker (svc : TaskService) (now : Nat) (taskId : String)
    (st : TStatus)
    (hgate : ¬(svc.circuitBreaker.state = BState.OPEN ∧ now < svc.circuitBreaker.nextAttempt))
    (habs : svc.tasks.find? (fun t => t.id == taskId) = none) :
    (svc.updateTaskStatus now taskId st).1
      = Except.error (ExecError.opError TaskError.taskNotFound) ∧
    (svc.updateTaskStatus now taskId st).2.tasks = svc.tasks ∧
    (svc.updateTaskStatus now taskId st).2.eventStore = svc.eventStore ∧
    (svc.updateTaskStatus now taskId st).2.circuitBreaker
      = onFailure (gateStep svc.circuitBreaker) now := by
  simp only [TaskService.updateTaskStatus]
  rw [executeS_err _ _ _ _ TaskError.taskNotFound (svc.tasks, svc.eventStore) hgate
        (by simp only [habs])]
  exact ⟨rfl, rfl, rfl, rfl⟩

/-- Witness for C3 (corrected): the concrete absent-id update above,
with the breaker post-state given by `onFailure` after the gate step. -/
theorem c3_not_found_inside_breaker_witness :
    ¬((mkBreaker 3 5000 2 0).state = BState.OPEN ∧ (10 : Nat) < (mkBreaker 3 5000 2 0).nextAttempt) ∧
    ([] : List Task).find? (fun t => t.id == "missing") = none ∧
    ((TaskService.updateTaskStatus
        { tasks := [], eventStore := [], circuitBreaker := mkBreaker 3 5000 2 0 } 10
        "missing" TStatus.pending).1
      = Except.error (ExecError.opError TaskError.taskNotFound) ∧
     (TaskService.updateTaskStatus
        { tasks := [], eventStore := [], circuitBreaker := mkBreaker 3 5000 2 0 } 10
        "missing" TStatus.pending).2.tasks = [] ∧
     (TaskService.updateTaskStatus
        { tasks := [], eventStore := [], circuitBreaker := mkBreaker 3 5000 2 0 } 10
        "missing" TStatus.pending).2.eventStore = [] ∧
     (TaskService.updateTaskStatus
        { tasks := [], eventStore := [], circuitBreaker := mkBreaker 3 5000 2 0 } 10
        "missing" TStatus.pending).2.circuitBreaker
       = onFailure (gateStep (mkBreaker 3 5000 2 0)) 10) :=
  ⟨by decide, rfl,
   c3_not_found_inside_breaker
     { tasks := [], eventStore := [], circuitBreaker := mkBreaker 3 5000 2 0 } 10
     "missing" TStatus.pending (by decide) rfl⟩

lemma breakerInv_onFailure (cb : CircuitBreaker) (now : Nat) :
    BreakerInv (onFailure cb now) := by
  intro _
  unfold onFailure
  by_cases h : cb.failureCount + 1 ≥ cb.threshold
  · simp only [if_pos h]
  · simp only [if_neg h]

lemma breakerInv_onSuccess (cb : CircuitBreaker) (hinv : BreakerInv cb) :
    BreakerInv (onSuccess cb) := by
  unfold BreakerInv at *
  unfold onSuccess
  by_cases hho : cb.state = BState.HALF_OPEN
  · simp only [if_pos hho]
    by_cases hth : cb.successCount + 1 ≥ cb.successThreshold
    · simp only [if_pos hth]
      intro _
      trivial
    · simp only [if_neg hth]
      intro habs
      exact absurd hho habs
  · simp only [if_neg hho]
    intro _
    exact hinv hho

lemma breakerInv_gateStep (cb : CircuitBreaker) (hinv : BreakerInv cb) :
    BreakerInv (gateStep cb) := by
  unfold BreakerInv at *
  unfold gateStep
  by_cases ho : cb.state = BState.OPEN
  · simp only [if_pos ho]
    intro habs
    exact absurd habs (by simp)
  · simp only [if_neg ho]
    exact hinv

/-- Claim C9 (confirmed): the invariant "outside HALF_OPEN the success
counter is 0" holds for a fresh breaker and is preserved by every
`execute` call, whatever the wrapped operation does; and the
OPEN-to-HALF_OPEN step itself (the only way `execute` enters HALF_OPEN)
does not touch `successCount`, so under the invariant every HALF_OPEN
episode begins with `successCount = 0`. -/
theorem c9_half_open_starts_from_zero :
    (∀ threshold timeout successThreshold now : Nat,
       BreakerInv (mkBreaker threshold timeout successThreshold now)) ∧
    (∀ (σ ε α : Type) (cb : CircuitBreaker) (now : Nat) (fn : σ → Except ε α × σ) (s : σ),
       BreakerInv cb → BreakerInv (executeS cb now fn s).2.1) ∧
    (∀ cb : CircuitBreaker, BreakerInv cb → cb.state = BState.OPEN →
       (gateStep cb).state = BState.HALF_OPEN ∧ (gateStep cb).successCount = 0) := by
  refine ⟨fun thr tmo sthr now _ => rfl, ?_, ?_⟩
  · intro σ ε α cb now fn s hinv
    unfold executeS
    by_cases hg : cb.state = BState.OPEN ∧ now < cb.nextAttempt
    · simp only [if_pos hg]
      exact hinv
    · simp only [if_neg hg]
      rcases hfn : fn s with ⟨r, s1⟩
      cases r with
      | ok a => exact breakerInv_onSuccess _ (breakerInv_gateStep _ hinv)
      | error e => exact breakerInv_onFailure _ _
  · intro cb hinv ho
    unfold gateStep
    simp only [if_pos ho]
    exact ⟨trivial, hinv (by rw [ho]; simp)⟩

/-- Witness for C9: the invariant holds for the default breaker, is
kept by a concrete failing call, and the gate step of a concrete OPEN
breaker enters HALF_OPEN with a zero success counter. -/
theorem c9_half_open_starts_from_zero_witness :
    BreakerInv (mkBreaker 3 5000 2 0) ∧
    BreakerInv (executeS (mkBreaker 3 5000 2 0) 0
      (fun s : Unit => ((Except.error () : Except Unit Unit), s)) ()).2.1 ∧
    ((gateStep { mkBreaker 3 5000 2 7 with state := BState.OPEN }).state
        = BState.HALF_OPEN ∧
     (gateStep { mkBreaker 3 5000 2 7 with state := BState.OPEN }).successCount = 0) :=
  ⟨c9_half_open_starts_from_zero.1 3 5000 2 0,
   c9_half_open_starts_from_zero.2.1 Unit Unit Unit (mkBreaker 3 5000 2 0) 0
     (fun s : Unit => ((Except.error () : Except Unit Unit), s)) () (fun _ => rfl),
   c9_half_open_starts_from_zero.2.2 { mkBreaker 3 5000 2 7 with state := BState.OPEN }
     (fun _ => rfl) rfl⟩

lemma take_succ_getD {α : Type} (ts : List α) (n : Nat) (d : α) :
    n < ts.length → ts.take (n + 1) = ts.take n ++ [ts.getD n d] := by
  induction ts generalizing n with
  | nil => intro h; exact absurd h (by simp)
  | cons x xs ih =>
    intro h
    cases n with
    | zero => simp
    | succ m =>
      have hm : m < xs.length := by simpa using h
      simp only [List.take_succ_cons, List.getD_cons_succ, List.cons_append]
      rw [ih m hm]

lemma afterFails_take_succ (cb : CircuitBreaker) (ts : List Nat) (n : Nat)
    (h : n < ts.length) :
    afterFails cb (ts.take (n + 1)) = execFail (afterFails cb (ts.take n)) (ts.getD n 0) := by
  rw [take_succ_getD ts n 0 h]
  unfold afterFails
  rw [List.foldl_concat]

lemma execFail_eq (cb : CircuitBreaker) (t : Nat) :
    execFail cb t =
      if cb.state = BState.OPEN ∧ t < cb.nextAttempt then cb
      else onFailure (gateStep cb) t := by
  by_cases hg : cb.state = BState.OPEN ∧ t < cb.nextAttempt
  · simp only [execFail, executeS, if_pos hg]
  · simp only [execFail, executeS, if_neg hg]

lemma execFail_no_trip (cb : CircuitBreaker) (t : Nat)
    (hst : cb.state ≠ BState.OPEN) (hlt : cb.failureCount + 1 < cb.threshold) :
    execFail cb t = { cb with failureCount := cb.failureCount + 1, successCount := 0 } := by
  rw [execFail_eq, if_neg (fun hc => hst hc.1), gateStep_of_not_open cb hst]
  unfold onFailure
  rw [if_neg (show ¬(cb.failureCount + 1 ≥ cb.threshold) by omega)]

lemma execFail_trip (cb : CircuitBreaker) (t : Nat)
    (hst : cb.state ≠ BState.OPEN) (hge : cb.threshold ≤ cb.failureCount + 1) :
    execFail cb t = { cb with failureCount := cb.failureCount + 1, successCount := 0,
                              state := BState.OPEN, nextAttempt := t + cb.timeout } := by
  rw [execFail_eq, if_neg (fun hc => hst hc.1), gateStep_of_not_open cb hst]
  unfold onFailure
  rw [if_pos (show cb.failureCount + 1 ≥ cb.threshold from hge)]

lemma execFail_open_reject (cb : CircuitBreaker) (t : Nat)
    (hst : cb.state = BState.OPEN) (hlt : t < cb.nextAttempt) :
    execFail cb t = cb := by
  rw [execFail_eq, if_pos ⟨hst, hlt⟩]

lemma execFail_open_probe (cb : CircuitBreaker) (t : Nat)
    (hst : cb.state = BState.OPEN) (hge : cb.nextAttempt ≤ t)
    (hfc : cb.threshold ≤ cb.failureCount) :
    execFail cb t = { cb with failureCount := cb.failureCount + 1, successCount := 0,
                              state := BState.OPEN, nextAttempt := t + cb.timeout } := by
  rw [execFail_eq, if_neg (fun hc => absurd hc.2 (by omega))]
  unfold gateStep
  rw [if_pos hst]
  unfold onFailure
  rw [if_pos (show cb.failureCount + 1 ≥ cb.threshold by omega)]

lemma afterFails_closed (threshold timeout sthr t0 : Nat) (ts : List Nat) :
    ∀ i, i ≤ ts.length → i < threshold →
      afterFails (mkBreaker threshold timeout sthr t0) (ts.take i)
        = { mkBreaker threshold timeout sthr t0 with failureCount := i } := by
  intro i
  induction i with
  | zero => intro _ _; rfl
  | succ n ih =>
    intro hle hlt
    rw [afterFails_take_succ _ _ _ (by omega), ih (by omega) (by omega),
        execFail_no_trip _ _ (by simp [mkBreaker]) (by simp [mkBreaker]; omega)]
    rfl

lemma afterFails_at_threshold (threshold timeout sthr t0 : Nat) (ts : List Nat)
    (hthr : 0 < threshold) (hlen : threshold ≤ ts.length) :
    afterFails (mkBreaker threshold timeout sthr t0) (ts.take threshold)
      = { mkBreaker threshold timeout sthr t0 with
            failureCount := threshold, state := BState.OPEN,
            nextAttempt := ts.getD (threshold - 1) 0 + timeout } := by
  obtain ⟨k, rfl⟩ : ∃ k, threshold = k + 1 := ⟨threshold - 1, by omega⟩
  rw [afterFails_take_succ _ _ _ (by omega),
      afterFails_closed (k + 1) timeout sthr t0 ts k (by omega) (by omega),
      execFail_trip _ _ (by simp [mkBreaker]) (by simp [mkBreaker])]
  simp [mkBreaker]

lemma afterFails_open (threshold timeout sthr t0 : Nat) (ts : List Nat)
    (hthr : 0 < threshold) (hlen : threshold ≤ ts.length) :
    ∀ j, threshold ≤ j → j ≤ ts.length →
      (afterFails (mkBreaker threshold timeout sthr t0) (ts.take j)).state = BState.OPEN ∧
      threshold ≤ (afterFails (mkBreaker threshold timeout sthr t0) (ts.take j)).failureCount ∧
      (afterFails (mkBreaker threshold timeout sthr t0) (ts.take j)).threshold = threshold := by
  intro j hj
  induction j, hj using Nat.le_induction with
  | base =>
    intro _
    rw [afterFails_at_threshold threshold timeout sthr t0 ts hthr hlen]
    exact ⟨rfl, le_refl threshold, rfl⟩
  | succ n hn ih =>
    intro hle
    rcases ih (by omega) with ⟨hst, hfc, hth⟩
    rw [afterFails_take_succ _ _ _ (by omega)]
    by_cases hr : ts.getD n 0 <
        (afterFails (mkBreaker threshold timeout sthr t0) (ts.take n)).nextAttempt
    · rw [execFail_open_reject _ _ hst hr]
      exact ⟨hst, hfc, hth⟩
    · rw [execFail_open_probe _ _ hst (by omega) (by rw [hth]; exact hfc)]
      exact ⟨rfl, by simp; omega, hth⟩

/-- Claim C6 (confirmed): starting CLOSED, feeding failing calls at
arbitrary times: after each of the first `threshold - 1` calls the
breaker is still not OPEN and `failureCount` equals the number of
calls; the call at which `failureCount` first reaches the threshold is
the unique call whose post-state switches to OPEN (every later
post-state stays OPEN), and at that call `nextAttempt` is set to the
call's time plus the configured timeout. -/
theorem c6_opens_once_at_threshold (threshold timeout successThreshold t0 : Nat)
    (ts : List Nat) (hthr : 0 < threshold) (hlen : threshold ≤ ts.length) :
    (∀ i, i ≤ ts.length →
       ((afterFails (mkBreaker threshold timeout successThreshold t0) (ts.take i)).state
          = BState.OPEN ↔ threshold ≤ i)) ∧
    (∀ i, i < threshold →
       (afterFails (mkBreaker threshold timeout successThreshold t0) (ts.take i)).failureCount
         = i) ∧
    (afterFails (mkBreaker threshold timeout successThreshold t0)
        (ts.take threshold)).failureCount = threshold ∧
    (afterFails (mkBreaker threshold timeout successThreshold t0)
        (ts.take threshold)).nextAttempt = ts.getD (threshold - 1) 0 + timeout ∧
    (∃! i, i < ts.length ∧
       (afterFails (mkBreaker threshold timeout successThreshold t0) (ts.take i)).state
         ≠ BState.OPEN ∧
       (afterFails (mkBreaker threshold timeout successThreshold t0) (ts.take (i + 1))).state
         = BState.OPEN) := by
  have hiff : ∀ i, i ≤ ts.length →
      ((afterFails (mkBreaker threshold timeout successThreshold t0) (ts.take i)).state
        = BState.OPEN ↔ threshold ≤ i) := by
    intro i hile
    by_cases hi : threshold ≤ i
    · have h1 := (afterFails_open threshold timeout successThreshold t0 ts hthr hlen i
        hi hile).1
      exact ⟨fun _ => hi, fun _ => h1⟩
    · rw [afterFails_closed threshold timeout successThreshold t0 ts i hile (by omega)]
      constructor
      · intro h
        exact absurd h (by simp [mkBreaker])
      · intro h
        exact absurd h hi
  refine ⟨hiff, ?_, ?_, ?_, ?_⟩
  · intro i hi
    rw [afterFails_closed threshold timeout successThreshold t0 ts i (by omega) hi]
  · rw [afterFails_at_threshold threshold timeout successThreshold t0 ts hthr hlen]
  · rw [afterFails_at_threshold threshold timeout successThreshold t0 ts hthr hlen]
  · refine ⟨threshold - 1, ⟨by omega, ?_, ?_⟩, ?_⟩
    · intro h
      have := (hiff (threshold - 1) (by omega)).1 h
      omega
    · have he : threshold - 1 + 1 = threshold := by omega
      rw [he]
      exact (hiff threshold (by omega)).2 (le_refl threshold)
    · intro y hy
      rcases hy with ⟨hylt, hyne, hyop⟩
      have h1 : ¬ threshold ≤ y := fun hc => hyne ((hiff y (by omega)).2 hc)
      have h2 : threshold ≤ y + 1 := (hiff (y + 1) (by omega)).1 hyop
      omega

/-- Witness for C6: the default configuration (threshold 3, timeout
5000) fed four failing calls, the last one after the cooldown: the
breaker opens exactly at the third call with `nextAttempt = 5000`. -/
theorem c6_opens_once_at_threshold_witness :
    0 < 3 ∧ 3 ≤ [0, 0, 0, 6000].length ∧
    ((afterFails (mkBreaker 3 5000 2 0) ([0, 0, 0, 6000].take 2)).state = BState.OPEN
      ↔ 3 ≤ 2) ∧
    ((afterFails (mkBreaker 3 5000 2 0) ([0, 0, 0, 6000].take 3)).state = BState.OPEN
      ↔ 3 ≤ 3) ∧
    ((afterFails (mkBreaker 3 5000 2 0) ([0, 0, 0, 6000].take 4)).state = BState.OPEN
      ↔ 3 ≤ 4) ∧
    (afterFails (mkBreaker 3 5000 2 0) ([0, 0, 0, 6000].take 2)).failureCount = 2 ∧
    (afterFails (mkBreaker 3 5000 2 0) ([0, 0, 0, 6000].take 3)).failureCount = 3 ∧
    (afterFails (mkBreaker 3 5000 2 0) ([0, 0, 0, 6000].take 3)).nextAttempt
      = [0, 0, 0, 6000].getD (3 - 1) 0 + 5000 :=
  have h := c6_opens_once_at_threshold 3 5000 2 0 [0, 0, 0, 6000] (by decide) (by decide)
  ⟨by decide, by decide, h.1 2 (by decide), h.1 3 (by decide), h.1 4 (by decide),
   h.2.1 2 (by decide), h.2.2.1, h.2.2.2.1⟩

end TaskMgmt
